import Mathlib

/-!
# Verification of the AI Website Analyzer pipeline (src/src/App.tsx)

A shallow embedding of the analysis pipeline of `src/src/App.tsx`:
URL validation, the staged pipeline (`analyzeWebsite`), report assembly,
persistence via the record store (`blink.db.websiteAnalyses.create` /
`.list`), the history decode layer (`loadHistory`), the overall-score and
history-statistics computations, and the export overall score.

Modelling conventions:
* JavaScript strings are Lean `String`s; the JS string methods the source
  calls (`trim`, `startsWith`) are modelled over `.data` character lists.
* JS numbers are modelled as `Int` (every number the claims touch is
  integral in the source's data flow).
* The external collaborators (`blink.data.scrape`, `blink.data.screenshot`,
  `blink.ai.generateObject`, the store's `create`) are oracles: an `Env`
  record fixes each one's outcome for a run, and `Date.now()` is `Env.now`
  (the source reads the clock twice in immediate succession when assembling
  a report; both reads are modelled as the same instant).
* `JSON.stringify`/`JSON.parse` are modelled at the JSON-value level with an
  inductive `Json`: a stored blob is `Option Json`, `none` standing for a
  stored string on which `JSON.parse` throws.  The AI-analysis prompt text
  is input to the generation oracle only, so its construction is elided.
-/

/-- JSON values, the codomain of `JSON.parse` as used by `loadHistory`. -/
inductive Json where
  | null : Json
  | bool : Bool → Json
  | num : Int → Json
  | str : String → Json
  | arr : List Json → Json
  | obj : List (String × Json) → Json

/-- Performance detail metrics (`AnalysisResult.performance.metrics`). -/
structure PerfMetrics where
  loadTime : Int
  firstContentfulPaint : Int
  largestContentfulPaint : Int
  cumulativeLayoutShift : Int
  deriving DecidableEq

/-- One SEO issue (`AnalysisResult.seo.issues` element). -/
structure SeoIssue where
  type : String
  message : String
  impact : String
  deriving DecidableEq

/-- One accessibility violation (`AnalysisResult.accessibility.violations` element). -/
structure A11yViolation where
  severity : String
  description : String
  element : String
  deriving DecidableEq

/-- Design detail analysis (`AnalysisResult.design.analysis`). -/
structure DesignAnalysis where
  colorContrast : Int
  typography : Int
  layout : Int
  responsiveness : Int
  deriving DecidableEq

/-- UX detail metrics (`AnalysisResult.ux.metrics`). -/
structure UxMetrics where
  navigationClarity : Int
  contentReadability : Int
  mobileUsability : Int
  interactionDesign : Int
  deriving DecidableEq

/-- `AnalysisResult.performance`. -/
structure PerfResult where
  score : Int
  metrics : PerfMetrics
  recommendations : List String
  deriving DecidableEq

/-- `AnalysisResult.seo`. -/
structure SeoResult where
  score : Int
  issues : List SeoIssue
  recommendations : List String
  deriving DecidableEq

/-- `AnalysisResult.accessibility`. -/
structure A11yResult where
  score : Int
  violations : List A11yViolation
  recommendations : List String
  deriving DecidableEq

/-- `AnalysisResult.design`. -/
structure DesignResult where
  score : Int
  analysis : DesignAnalysis
  recommendations : List String
  deriving DecidableEq

/-- `AnalysisResult.ux`. -/
structure UxResult where
  score : Int
  metrics : UxMetrics
  recommendations : List String
  deriving DecidableEq

/-- The five-category body returned by `blink.ai.generateObject`
(the `analysis` object spread into the assembled result). -/
structure AnalysisBody where
  performance : PerfResult
  seo : SeoResult
  accessibility : A11yResult
  design : DesignResult
  ux : UxResult
  deriving DecidableEq

/-- The `AnalysisResult` interface of `App.tsx`. -/
structure AnalysisResult where
  id : String
  url : String
  timestamp : Int
  performance : PerfResult
  seo : SeoResult
  accessibility : A11yResult
  design : DesignResult
  ux : UxResult
  deriving DecidableEq

/-- Sum of the five category scores, the numerator of
`(result.performance.score + ... + result.ux.score) / 5`. -/
def sumScores (r : AnalysisResult) : Int :=
  r.performance.score + r.seo.score + r.accessibility.score +
    r.design.score + r.ux.score

/-- JS `Math.round`: round to nearest, halves toward `+∞`
(`Math.round x = ⌊x + 0.5⌋`). -/
def jsRound (q : ℚ) : Int := ⌊q + 1/2⌋

/-- The overall score of a report, as computed identically at
`exportReport` (line 385) and in the history list (line 876):
`Math.round((perf + seo + a11y + design + ux) / 5)`. -/
def overallScore (r : AnalysisResult) : Int := jsRound ((sumScores r : ℚ) / 5)

/-- Field lookup on a JSON object (property access on a parsed value). -/
def jGet (j : Json) (key : String) : Option Json :=
  match j with
  | .obj fields => (fields.find? (fun p => p.1 = key)).map (·.2)
  | _ => none

/-- Read a JSON string value. -/
def jStr : Option Json → Option String
  | some (.str s) => some s
  | _ => none

/-- Read a JSON number value. -/
def jNum : Option Json → Option Int
  | some (.num n) => some n
  | _ => none

/-- `JSON.stringify` image of a list of strings. -/
def encodeStrList (l : List String) : Json := Json.arr (l.map Json.str)

/-- `JSON.stringify` image of one SEO issue. -/
def encodeIssue (i : SeoIssue) : Json :=
  Json.obj [("type", .str i.type), ("message", .str i.message), ("impact", .str i.impact)]

/-- `JSON.stringify` image of one accessibility violation. -/
def encodeViolation (v : A11yViolation) : Json :=
  Json.obj [("severity", .str v.severity), ("description", .str v.description),
    ("element", .str v.element)]

/-- `JSON.stringify` image of `performance`. -/
def encodePerf (p : PerfResult) : Json :=
  Json.obj [("score", .num p.score),
    ("metrics", Json.obj [("loadTime", .num p.metrics.loadTime),
      ("firstContentfulPaint", .num p.metrics.firstContentfulPaint),
      ("largestContentfulPaint", .num p.metrics.largestContentfulPaint),
      ("cumulativeLayoutShift", .num p.metrics.cumulativeLayoutShift)]),
    ("recommendations", encodeStrList p.recommendations)]

/-- `JSON.stringify` image of `seo`. -/
def encodeSeo (s : SeoResult) : Json :=
  Json.obj [("score", .num s.score), ("issues", Json.arr (s.issues.map encodeIssue)),
    ("recommendations", encodeStrList s.recommendations)]

/-- `JSON.stringify` image of `accessibility`. -/
def encodeA11y (a : A11yResult) : Json :=
  Json.obj [("score", .num a.score),
    ("violations", Json.arr (a.violations.map encodeViolation)),
    ("recommendations", encodeStrList a.recommendations)]

/-- `JSON.stringify` image of `design`. -/
def encodeDesign (d : DesignResult) : Json :=
  Json.obj [("score", .num d.score),
    ("analysis", Json.obj [("colorContrast", .num d.analysis.colorContrast),
      ("typography", .num d.analysis.typography),
      ("layout", .num d.analysis.layout),
      ("responsiveness", .num d.analysis.responsiveness)]),
    ("recommendations", encodeStrList d.recommendations)]

/-- `JSON.stringify` image of `ux`. -/
def encodeUx (u : UxResult) : Json :=
  Json.obj [("score", .num u.score),
    ("metrics", Json.obj [("navigationClarity", .num u.metrics.navigationClarity),
      ("contentReadability", .num u.metrics.contentReadability),
      ("mobileUsability", .num u.metrics.mobileUsability),
      ("interactionDesign", .num u.metrics.interactionDesign)]),
    ("recommendations", encodeStrList u.recommendations)]

/-- `JSON.stringify(analysisResult)` at line 333: keys in the insertion
order of the object literal at lines 315-320. -/
def encodeResult (r : AnalysisResult) : Json :=
  Json.obj [("id", .str r.id), ("url", .str r.url), ("timestamp", .num r.timestamp),
    ("performance", encodePerf r.performance), ("seo", encodeSeo r.seo),
    ("accessibility", encodeA11y r.accessibility), ("design", encodeDesign r.design),
    ("ux", encodeUx r.ux)]

/-- Read back a JSON array of strings. -/
def decodeStrs : List Json → Option (List String)
  | [] => some []
  | .str s :: rest => (decodeStrs rest).map (s :: ·)
  | _ => none

/-- Read back a `recommendations` field. -/
def decodeStrList : Option Json → Option (List String)
  | some (.arr l) => decodeStrs l
  | _ => none

/-- Read back one SEO issue. -/
def decodeIssue (j : Json) : Option SeoIssue := do
  let t ← jStr (jGet j "type")
  let m ← jStr (jGet j "message")
  let i ← jStr (jGet j "impact")
  pure { type := t, message := m, impact := i }

/-- Read back a JSON array of SEO issues. -/
def decodeIssues : List Json → Option (List SeoIssue)
  | [] => some []
  | j :: rest => do
      let i ← decodeIssue j
      let is ← decodeIssues rest
      pure (i :: is)

/-- Read back one accessibility violation. -/
def decodeViolation (j : Json) : Option A11yViolation := do
  let sev ← jStr (jGet j "severity")
  let d ← jStr (jGet j "description")
  let e ← jStr (jGet j "element")
  pure { severity := sev, description := d, element := e }

/-- Read back a JSON array of violations. -/
def decodeViolations : List Json → Option (List A11yViolation)
  | [] => some []
  | j :: rest => do
      let v ← decodeViolation j
      let vs ← decodeViolations rest
      pure (v :: vs)

/-- Read back `performance`. -/
def decodePerf (j : Json) : Option PerfResult := do
  let sc ← jNum (jGet j "score")
  let m ← match jGet j "metrics" with
    | some jm => do
        let lt ← jNum (jGet jm "loadTime")
        let fcp ← jNum (jGet jm "firstContentfulPaint")
        let lcp ← jNum (jGet jm "largestContentfulPaint")
        let cls ← jNum (jGet jm "cumulativeLayoutShift")
        pure (⟨lt, fcp, lcp, cls⟩ : PerfMetrics)
    | none => none
  let recs ← decodeStrList (jGet j "recommendations")
  pure { score := sc, metrics := m, recommendations := recs }

/-- Read back `seo`. -/
def decodeSeo (j : Json) : Option SeoResult := do
  let sc ← jNum (jGet j "score")
  let is ← match jGet j "issues" with
    | some (.arr l) => decodeIssues l
    | _ => none
  let recs ← decodeStrList (jGet j "recommendations")
  pure { score := sc, issues := is, recommendations := recs }

/-- Read back `accessibility`. -/
def decodeA11y (j : Json) : Option A11yResult := do
  let sc ← jNum (jGet j "score")
  let vs ← match jGet j "violations" with
    | some (.arr l) => decodeViolations l
    | _ => none
  let recs ← decodeStrList (jGet j "recommendations")
  pure { score := sc, violations := vs, recommendations := recs }

/-- Read back `design`. -/
def decodeDesign (j : Json) : Option DesignResult := do
  let sc ← jNum (jGet j "score")
  let a ← match jGet j "analysis" with
    | some ja => do
        let cc ← jNum (jGet ja "colorContrast")
        let ty ← jNum (jGet ja "typography")
        let la ← jNum (jGet ja "layout")
        let re ← jNum (jGet ja "responsiveness")
        pure (⟨cc, ty, la, re⟩ : DesignAnalysis)
    | none => none
  let recs ← decodeStrList (jGet j "recommendations")
  pure { score := sc, analysis := a, recommendations := recs }

/-- Read back `ux`. -/
def decodeUx (j : Json) : Option UxResult := do
  let sc ← jNum (jGet j "score")
  let m ← match jGet j "metrics" with
    | some jm => do
        let nc ← jNum (jGet jm "navigationClarity")
        let cr ← jNum (jGet jm "contentReadability")
        let mu ← jNum (jGet jm "mobileUsability")
        let idn ← jNum (jGet jm "interactionDesign")
        pure (⟨nc, cr, mu, idn⟩ : UxMetrics)
    | none => none
  let recs ← decodeStrList (jGet j "recommendations")
  pure { score := sc, metrics := m, recommendations := recs }

/-- The five category sections read out of a parsed blob, as the spread
`...analysisData` makes them fields of the history entry.  `none` models a
parsed blob whose shape does not supply all five well-typed sections: the
spread still succeeds in JS but produces an entry that is not a well-typed
`AnalysisResult` (fields `undefined` or mistyped). -/
def decodeBody (j : Json) : Option AnalysisBody := do
  let p ← (jGet j "performance").bind decodePerf
  let s ← (jGet j "seo").bind decodeSeo
  let a ← (jGet j "accessibility").bind decodeA11y
  let d ← (jGet j "design").bind decodeDesign
  let u ← (jGet j "ux").bind decodeUx
  pure { performance := p, seo := s, accessibility := a, design := d, ux := u }

/-- JS whitespace relevant here (space, tab, LF, CR). -/
def isJsSpace (c : Char) : Bool := c == ' ' || c == '\t' || c == '\n' || c == '\r'

/-- JS `String.prototype.trim`. -/
def jsTrim (s : String) : String :=
  String.mk (((s.data.dropWhile isJsSpace).reverse.dropWhile isJsSpace).reverse)

/-- JS `String.prototype.startsWith`. -/
def jsStartsWith (s pre : String) : Bool := pre.data.isPrefixOf s.data

/-- Decimal digit character (`'0'` has code 48). -/
def digitChar (d : Nat) : Char := Char.ofNat (48 + d)

/-- Fuel-driven decimal rendering; any fuel above the argument suffices. -/
def natToDecGo : Nat → Nat → List Char
  | 0, _ => []
  | fuel + 1, n =>
      if n < 10 then [digitChar n]
      else natToDecGo fuel (n / 10) ++ [digitChar (n % 10)]

/-- Decimal rendering of a natural number, the platform's number-to-string
conversion applied to `Date.now()` inside the template literal
`` `analysis_${Date.now()}` `` (line 316). -/
def natToDec (n : Nat) : List Char := natToDecGo (n + 1) n

/-- The report id generated at assembly time: `` `analysis_${Date.now()}` ``. -/
def idOf (now : Nat) : String := "analysis_" ++ String.mk (natToDec now)

/-- Forbidden host characters of the WHATWG URL parser (the fragment that
matters here: whitespace and delimiter code points may not appear in a
host). -/
def isForbiddenHostChar (c : Char) : Bool :=
  c == ' ' || c == '\t' || c == '\n' || c == '\r' || c == '#' || c == '/' ||
    c == '<' || c == '>' || c == '?' || c == '@' || c == '[' || c == '\\' ||
    c == ']' || c == '^' || c == '|' || c == '%'

/-- Validity of the authority section (host, optional `:port`). -/
def hostPortValid (auth : List Char) : Bool :=
  let host := auth.takeWhile (fun c => c != ':')
  let rest := auth.dropWhile (fun c => c != ':')
  !host.isEmpty && host.all (fun c => !isForbiddenHostChar c) &&
    (match rest with
     | [] => true
     | _ :: port => port.all (·.isDigit))

/-- Model of the platform `new URL` constructor restricted to the fragment
`validateUrl` can produce: absolute `http://`/`https://` URLs without
userinfo.  Mirrors WHATWG behaviour: leading/trailing whitespace of the
whole URL string is stripped, then the authority (up to the first `/`, `?`
or `#` after the scheme) must be a nonempty host free of forbidden code
points, with an optional all-digit port. -/
def jsUrlValid (s : String) : Bool :=
  let t := ((s.data.dropWhile isJsSpace).reverse.dropWhile isJsSpace).reverse
  let rest :=
    if "https://".data.isPrefixOf t then some (t.drop 8)
    else if "http://".data.isPrefixOf t then some (t.drop 7)
    else none
  match rest with
  | none => false
  | some r => hostPortValid (r.takeWhile (fun c => c != '/' && c != '?' && c != '#'))

/-- URL validation of `analyzeWebsite` (lines 153-168): reject when the
trimmed input is empty; otherwise prepend `https://` unless the (untrimmed)
input starts with `http://` or `https://`; then parse with `new URL`,
rejecting on a parse failure.  `none` is the `InvalidUrl` outcome (a toast
and an early return, the pipeline never starts). -/
def validateUrl (url : String) : Option String :=
  if jsTrim url = "" then none
  else
    let validUrl :=
      if jsStartsWith url "http://" || jsStartsWith url "https://" then url
      else "https://" ++ url
    if jsUrlValid validUrl then some validUrl else none

/-- A row of the `websiteAnalyses` table as written by `create`
(lines 323-335).  The denormalized score columns are `Option Int` so that a
legacy row may lack them (`item.performanceScore || 0` guards absence);
`analysisData` is `none` when the stored text makes `JSON.parse` throw. -/
structure StoredRecord where
  id : String
  userId : String
  url : String
  timestamp : Int
  performanceScore : Option Int
  seoScore : Option Int
  accessibilityScore : Option Int
  designScore : Option Int
  uxScore : Option Int
  analysisData : Option Json
  createdAt : String

/-- JS `x || d` on a possibly-absent number: absent, `null` and `0` are
falsy and give `d`. -/
def jsOr (x : Option Int) (d : Int) : Int :=
  match x with
  | some n => if n = 0 then d else n
  | none => d

/-- The record `create` receives for an assembled report (lines 323-335). -/
def mkRecord (userId : String) (nowIso : String) (r : AnalysisResult) : StoredRecord :=
  { id := r.id, userId := userId, url := r.url, timestamp := r.timestamp,
    performanceScore := some r.performance.score,
    seoScore := some r.seo.score,
    accessibilityScore := some r.accessibility.score,
    designScore := some r.design.score,
    uxScore := some r.ux.score,
    analysisData := some (encodeResult r),
    createdAt := nowIso }

/-- The fallback structure `loadHistory` synthesizes when `JSON.parse`
throws (lines 118-127): denormalized scores (with `|| 0`), zeroed detail
bundles, empty lists. -/
def fallbackEntry (item : StoredRecord) : AnalysisResult :=
  { id := item.id, url := item.url, timestamp := item.timestamp,
    performance :=
      { score := jsOr item.performanceScore 0, metrics := ⟨0, 0, 0, 0⟩,
        recommendations := [] },
    seo := { score := jsOr item.seoScore 0, issues := [], recommendations := [] },
    accessibility :=
      { score := jsOr item.accessibilityScore 0, violations := [],
        recommendations := [] },
    design :=
      { score := jsOr item.designScore 0, analysis := ⟨0, 0, 0, 0⟩,
        recommendations := [] },
    ux :=
      { score := jsOr item.uxScore 0, metrics := ⟨0, 0, 0, 0⟩,
        recommendations := [] } }

/-- A base field of the history entry literal
`{ id: item.id, url: item.url, timestamp: item.timestamp, ...analysisData }`:
the spread overrides the base when the parsed blob carries the key. -/
def mergeStrField (j : Json) (key : String) (base : String) : Option String :=
  match jGet j key with
  | none => some base
  | some (.str s) => some s
  | some _ => none

/-- Numeric counterpart of `mergeStrField` (for `timestamp`). -/
def mergeNumField (j : Json) (key : String) (base : Int) : Option Int :=
  match jGet j key with
  | none => some base
  | some (.num n) => some n
  | some _ => none

/-- The per-item mapping of `loadHistory` (lines 106-129).  A parse failure
(`analysisData = none`) yields the fallback entry; a parsed blob is spread
over the base fields.  The overall `none` marks the one remaining case: a
parseable blob that does not carry all five well-typed sections, where JS
spreads anyway and the entry is not a well-typed `AnalysisResult`. -/
def parseHistoryItem (item : StoredRecord) : Option AnalysisResult :=
  match item.analysisData with
  | none => some (fallbackEntry item)
  | some j => do
      let body ← decodeBody j
      let id ← mergeStrField j "id" item.id
      let url ← mergeStrField j "url" item.url
      let ts ← mergeNumField j "timestamp" item.timestamp
      let entry : AnalysisResult :=
        { id := id, url := url, timestamp := ts,
          performance := body.performance, seo := body.seo,
          accessibility := body.accessibility, design := body.design,
          ux := body.ux }
      pure entry

/-- Stable insertion keeping `createdAt` descending. -/
def insertByCreatedAtDesc (x : StoredRecord) : List StoredRecord → List StoredRecord
  | [] => [x]
  | y :: ys =>
      if x.createdAt ≤ y.createdAt then y :: insertByCreatedAtDesc x ys
      else x :: y :: ys

/-- Sort records by `createdAt`, descending. -/
def sortByCreatedAtDesc : List StoredRecord → List StoredRecord
  | [] => []
  | x :: xs => insertByCreatedAtDesc x (sortByCreatedAtDesc xs)

/-- The store's `list` contract as invoked at lines 99-103: rows of the
user, ordered by `createdAt` descending, capped at `limit`. -/
def listAnalyses (db : List StoredRecord) (userId : String) (limit : Nat) :
    List StoredRecord :=
  (sortByCreatedAtDesc (db.filter (fun rec => rec.userId = userId))).take limit

/-- A user-facing toast signal. -/
inductive ToastMsg where
  | success : String → ToastMsg
  | error : String → ToastMsg
  deriving DecidableEq

/-- Outcome of `blink.data.scrape`. -/
structure ScrapeResult where
  markdown : String
  title : Option String
  description : Option String

/-- The oracle outcomes of one run's external calls, plus the clock.  The
prompt string (built from url, metadata and a 2000-character excerpt of the
markdown) only feeds `generateObject`, whose outcome the oracle already
fixes. -/
structure Env where
  scrape : Except String ScrapeResult
  screenshot : Except String String
  generateObject : Except String AnalysisBody
  createOk : Bool
  now : Nat
  nowIso : String

/-- The component state touched by the pipeline: the `useState` cells of
`App` plus the store contents and the toasts emitted so far. -/
structure AppState where
  userId : String
  url : String
  analyzing : Bool
  progress : Nat
  currentStep : String
  result : Option AnalysisResult
  history : List (Option AnalysisResult)
  db : List StoredRecord
  toasts : List ToastMsg

/-- Report assembly (lines 315-320): generated id, the validated URL, the
creation instant, and the spread analysis body. -/
def assembleResult (validUrl : String) (now : Nat) (body : AnalysisBody) :
    AnalysisResult :=
  { id := idOf now, url := validUrl, timestamp := (now : Int),
    performance := body.performance, seo := body.seo,
    accessibility := body.accessibility, design := body.design, ux := body.ux }

/-- `loadHistory` (lines 95-136): list the user's rows and parse each. -/
def loadHistory (s : AppState) : AppState :=
  { s with history := (listAnalyses s.db s.userId 10).map parseHistoryItem }

/-- The `try` block of `analyzeWebsite` (lines 174-345).  The boolean marks
whether the block threw (an adapter or persistence failure), which the
caller turns into the single catch-side toast. -/
def tryBlock (env : Env) (validUrl : String) (s : AppState) : AppState × Bool :=
  let s := { s with currentStep := "Analyzing website content...", progress := 20 }
  match env.scrape with
  | .error _ => (s, true)
  | .ok _scraped =>
    let s := { s with currentStep := "Capturing website screenshot...", progress := 40 }
    match env.screenshot with
    | .error _ => (s, true)
    | .ok _screenshotUrl =>
      let s := { s with currentStep := "Running AI analysis...", progress := 60 }
      match env.generateObject with
      | .error _ => (s, true)
      | .ok analysis =>
        let s := { s with currentStep := "Saving analysis results...", progress := 80 }
        let analysisResult := assembleResult validUrl env.now analysis
        if env.createOk then
          let s := { s with db := s.db ++ [mkRecord s.userId env.nowIso analysisResult] }
          let s :=
            { s with
              progress := 100, currentStep := "Analysis complete!",
              result := some analysisResult }
          let s := loadHistory s
          ({ s with toasts := s.toasts ++ [ToastMsg.success "Website analysis completed!"] },
            false)
        else (s, true)

/-- `analyzeWebsite` (lines 152-354) as a state transformer: URL
validation with early return, the staged `try` block, the `catch` toast,
and the `finally` resets. -/
def analyzeWebsite (env : Env) (s : AppState) : AppState :=
  match validateUrl s.url with
  | none =>
      { s with toasts := s.toasts ++ [ToastMsg.error "Please enter a valid URL"] }
  | some validUrl =>
      let s1 := { s with analyzing := true, progress := 0, result := none }
      let out := tryBlock env validUrl s1
      let s2 :=
        if out.2 then
          { out.1 with
            toasts := out.1.toasts ++ [ToastMsg.error "Analysis failed. Please try again."] }
        else out.1
      { s2 with analyzing := false, progress := 0, currentStep := "" }

/-- The Analyze button (lines 492-495): `disabled={analyzing || !url.trim()}`
— the click reaches `analyzeWebsite` only when enabled. -/
def buttonClick (env : Env) (s : AppState) : AppState :=
  if s.analyzing || jsTrim s.url = "" then s else analyzeWebsite env s

/-- The Quick Stats "Best Category" value (line 919):
`history.length > 0 ? 'Design' : 'N/A'`. -/
def bestCategoryCode (history : List (Option AnalysisResult)) : String :=
  if history.length > 0 then "Design" else "N/A"

/-- Modelled from the spec (§4.7): the mean score of one category across
the retrieved window. -/
def categoryMean (f : AnalysisResult → Int) (history : List AnalysisResult) : ℚ :=
  ((history.map f).sum : ℚ) / history.length

/-- Modelled from the spec (§4.7): "best category" = the category with the
highest mean score across the window (first of the five on a tie). -/
def specBestCategory (history : List AnalysisResult) : String :=
  let cats : List (String × ℚ) :=
    [("performance", categoryMean (fun r => r.performance.score) history),
     ("seo", categoryMean (fun r => r.seo.score) history),
     ("accessibility", categoryMean (fun r => r.accessibility.score) history),
     ("design", categoryMean (fun r => r.design.score) history),
     ("ux", categoryMean (fun r => r.ux.score) history)]
  (cats.foldl (fun best c => if c.2 > best.2 then c else best)
    ("performance", categoryMean (fun r => r.performance.score) history)).1

/-- Written from the spec's words (§4.7, §8): the overall score is the
arithmetic mean of the five category scores rounded to the nearest
integer, halves rounding up: `⌊mean⌋` when the fractional part is below
`1/2`, else `⌈mean⌉`. -/
def specOverallScore (r : AnalysisResult) : Int :=
  let m : ℚ := (sumScores r : ℚ) / 5
  if m - ⌊m⌋ < 1/2 then ⌊m⌋ else ⌈m⌉

/-- A representative in-range analysis body with nonempty detail lists. -/
def sampleBody : AnalysisBody :=
  { performance :=
      { score := 80, metrics := ⟨2, 1, 3, 0⟩,
        recommendations := ["Enable compression"] },
    seo :=
      { score := 60, issues := [⟨"warning", "Missing meta description", "medium"⟩],
        recommendations := ["Add meta description"] },
    accessibility :=
      { score := 90, violations := [⟨"minor", "Low contrast text", "p.footer"⟩],
        recommendations := ["Raise contrast"] },
    design :=
      { score := 70, analysis := ⟨70, 75, 65, 70⟩,
        recommendations := ["Unify spacing"] },
    ux :=
      { score := 50, metrics := ⟨55, 50, 45, 50⟩,
        recommendations := ["Simplify navigation"] } }

/-- `sampleBody` with the performance score replaced by the out-of-range 150. -/
def body150 : AnalysisBody :=
  { sampleBody with
    performance :=
      { score := 150, metrics := ⟨2, 1, 3, 0⟩,
        recommendations := ["Enable compression"] } }

/-- An environment in which every external call succeeds. -/
def envOk : Env :=
  { scrape := .ok ⟨"# Example", some "Example", none⟩, screenshot := .ok "shot.png",
    generateObject := .ok sampleBody, createOk := true, now := 1000,
    nowIso := "2026-01-01T00:00:00.000Z" }

/-- `envOk` with the generation oracle returning the out-of-range body. -/
def env150 : Env := { envOk with generateObject := .ok body150 }

/-- `envOk` with a failing Visual Capture stage. -/
def envShotFail : Env := { envOk with screenshot := .error "screenshot failed" }

/-- The initial component state with the URL field holding `example.com`. -/
def s0 : AppState :=
  { userId := "u1", url := "example.com", analyzing := false, progress := 0,
    currentStep := "", result := none, history := [], db := [], toasts := [] }

/-- A well-typed history entry whose performance score strictly dominates
the other four categories. -/
def perfBest : AnalysisResult :=
  { id := "analysis_1", url := "https://a.com", timestamp := 1,
    performance := { score := 100, metrics := ⟨1, 1, 1, 0⟩, recommendations := [] },
    seo := { score := 10, issues := [], recommendations := [] },
    accessibility := { score := 10, violations := [], recommendations := [] },
    design := { score := 10, analysis := ⟨10, 10, 10, 10⟩, recommendations := [] },
    ux := { score := 10, metrics := ⟨10, 10, 10, 10⟩, recommendations := [] } }

/-- A stored row whose blob is corrupt (`JSON.parse` throws) but whose
denormalized scores are present. -/
def corruptRec : StoredRecord :=
  { id := "analysis_7", userId := "u1", url := "https://old.example.com",
    timestamp := 7, performanceScore := some 80, seoScore := some 60,
    accessibilityScore := some 90, designScore := some 70, uxScore := some 50,
    analysisData := none, createdAt := "2025-01-01T00:00:00.000Z" }

/-- The assembled report of a successful `envOk` run on `example.com`. -/
def sampleResult : AnalysisResult := assembleResult "https://example.com" 1000 sampleBody

/-- A report whose five category scores are all zero. -/
def zeroResult : AnalysisResult :=
  fallbackEntry
    { corruptRec with
      performanceScore := some 0, seoScore := some 0, accessibilityScore := some 0,
      designScore := some 0, uxScore := some 0 }

/-- `s0` while a run is (notionally) in flight. -/
def sBusy : AppState := { s0 with analyzing := true }

/-- The state after a successful `envOk` run, with the URL field then
changed to `b.com` for a second run in the same millisecond. -/
def afterFirstRun : AppState := { analyzeWebsite envOk s0 with url := "b.com" }

/-- `s0` with a whitespace-only URL field. -/
def sWs : AppState := { s0 with url := "   " }

/- ### Helper lemmas -/

/-- `digitChar` is injective on decimal digits. -/
theorem digitChar_inj : ∀ d₁ < 10, ∀ d₂ < 10, digitChar d₁ = digitChar d₂ → d₁ = d₂ := by
  decide

/-- One unfolding step of the fuel-driven renderer. -/
theorem natToDecGo_succ (fuel n : Nat) :
    natToDecGo (fuel + 1) n =
      if n < 10 then [digitChar n]
      else natToDecGo fuel (n / 10) ++ [digitChar (n % 10)] := rfl

/-- The rendering does not depend on the fuel once it covers the argument. -/
theorem natToDecGo_fuel : ∀ f₁ f₂ n, n < f₁ → n < f₂ →
    natToDecGo f₁ n = natToDecGo f₂ n := by
  intro f₁
  induction f₁ with
  | zero => omega
  | succ g ih =>
    intro f₂ n h₁ h₂
    match f₂, h₂ with
    | h + 1, _ =>
      rw [natToDecGo_succ, natToDecGo_succ]
      by_cases hn : n < 10
      · simp [hn]
      · simp only [hn, if_false]
        rw [ih h (n / 10) (by omega) (by omega)]

/-- Recurrence of the decimal rendering. -/
theorem natToDec_eq (n : Nat) :
    natToDec n = if n < 10 then [digitChar n]
      else natToDec (n / 10) ++ [digitChar (n % 10)] := by
  show natToDecGo (n + 1) n = _
  rw [natToDecGo_succ]
  by_cases hn : n < 10
  · simp [hn]
  · simp only [hn, if_false]
    congr 1
    exact natToDecGo_fuel n (n / 10 + 1) (n / 10) (by omega) (by omega)

/-- A decimal rendering is never empty. -/
theorem natToDec_ne_nil (n : Nat) : natToDec n ≠ [] := by
  rw [natToDec_eq]
  by_cases hn : n < 10 <;> simp [hn]

/-- Decimal rendering is injective. -/
theorem natToDec_inj : ∀ m n : Nat, natToDec m = natToDec n → m = n := by
  intro m
  induction m using Nat.strong_induction_on with
  | _ m ih =>
    intro n h
    rw [natToDec_eq m, natToDec_eq n] at h
    by_cases hm : m < 10 <;> by_cases hn : n < 10
    · simp only [hm, hn, if_true] at h
      exact digitChar_inj m hm n hn (by simpa using h)
    · simp only [hm, hn, if_true, if_false] at h
      have hlen := congrArg List.length h
      simp [List.length_eq_zero] at hlen
      exact absurd hlen (natToDec_ne_nil _)
    · simp only [hm, hn, if_true, if_false] at h
      have hlen := congrArg List.length h
      simp [List.length_eq_zero] at hlen
      exact absurd hlen (natToDec_ne_nil _)
    · simp only [hm, hn, if_false] at h
      obtain ⟨h₁, h₂⟩ := List.append_inj' h (by simp)
      have hd : m / 10 = n / 10 := ih (m / 10) (by omega) (n / 10) h₁
      have hm10 : m % 10 = n % 10 := by
        apply digitChar_inj (m % 10) (by omega) (n % 10) (by omega)
        simpa using h₂
      omega

/-- Distinct creation instants give distinct generated ids. -/
theorem idOf_inj {m n : Nat} (h : m ≠ n) : idOf m ≠ idOf n := by
  intro he
  apply h
  apply natToDec_inj
  unfold idOf at he
  have hdata := congrArg String.data he
  simp only [String.data_append] at hdata
  exact List.append_cancel_left hdata

/-- Decoding inverts the encoding of a string list. -/
theorem decodeStrs_encode (l : List String) : decodeStrs (l.map Json.str) = some l := by
  induction l with
  | nil => rfl
  | cons x xs ih => simp [decodeStrs, ih]

/-- Decoding inverts the encoding of a `recommendations` field. -/
theorem decodeStrList_encode (l : List String) :
    decodeStrList (some (encodeStrList l)) = some l := by
  simp [decodeStrList, encodeStrList, decodeStrs_encode]

/-- Decoding inverts the encoding of one SEO issue. -/
theorem decodeIssue_encode (i : SeoIssue) : decodeIssue (encodeIssue i) = some i := by
  simp [decodeIssue, encodeIssue, jGet, jStr]

/-- Decoding inverts the encoding of an issue list. -/
theorem decodeIssues_encode (l : List SeoIssue) :
    decodeIssues (l.map encodeIssue) = some l := by
  induction l with
  | nil => rfl
  | cons x xs ih => simp [decodeIssues, decodeIssue_encode, ih]

/-- Decoding inverts the encoding of one violation. -/
theorem decodeViolation_encode (v : A11yViolation) :
    decodeViolation (encodeViolation v) = some v := by
  simp [decodeViolation, encodeViolation, jGet, jStr]

/-- Decoding inverts the encoding of a violation list. -/
theorem decodeViolations_encode (l : List A11yViolation) :
    decodeViolations (l.map encodeViolation) = some l := by
  induction l with
  | nil => rfl
  | cons x xs ih => simp [decodeViolations, decodeViolation_encode, ih]

/-- Decoding inverts the encoding of `performance`. -/
theorem decodePerf_encode (p : PerfResult) : decodePerf (encodePerf p) = some p := by
  simp [decodePerf, encodePerf, jGet, jNum, decodeStrList_encode]

/-- Decoding inverts the encoding of `seo`. -/
theorem decodeSeo_encode (s : SeoResult) : decodeSeo (encodeSeo s) = some s := by
  simp [decodeSeo, encodeSeo, jGet, jNum, decodeStrList_encode, decodeIssues_encode]

/-- Decoding inverts the encoding of `accessibility`. -/
theorem decodeA11y_encode (a : A11yResult) : decodeA11y (encodeA11y a) = some a := by
  simp [decodeA11y, encodeA11y, jGet, jNum, decodeStrList_encode, decodeViolations_encode]

/-- Decoding inverts the encoding of `design`. -/
theorem decodeDesign_encode (d : DesignResult) : decodeDesign (encodeDesign d) = some d := by
  simp [decodeDesign, encodeDesign, jGet, jNum, decodeStrList_encode]

/-- Decoding inverts the encoding of `ux`. -/
theorem decodeUx_encode (u : UxResult) : decodeUx (encodeUx u) = some u := by
  simp [decodeUx, encodeUx, jGet, jNum, decodeStrList_encode]

/-- Decoding inverts the encoding of the five-category body. -/
theorem decodeBody_encode (r : AnalysisResult) :
    decodeBody (encodeResult r) =
      some ⟨r.performance, r.seo, r.accessibility, r.design, r.ux⟩ := by
  simp [decodeBody, encodeResult, jGet, decodePerf_encode, decodeSeo_encode,
    decodeA11y_encode, decodeDesign_encode, decodeUx_encode]

/-- A record written by `create` parses back to the original report. -/
theorem parseHistoryItem_mkRecord (u iso : String) (r : AnalysisResult) :
    parseHistoryItem (mkRecord u iso r) = some r := by
  have h := decodeBody_encode r
  simp only [encodeResult] at h
  simp [parseHistoryItem, mkRecord, mergeStrField, mergeNumField, jGet, encodeResult, h]

/-- `x || 0` on a present number is that number. -/
theorem jsOr_some (n : Int) : jsOr (some n) 0 = n := by
  by_cases h : n = 0 <;> simp [jsOr, h]

/-- Insertion adds no record beyond its arguments. -/
theorem mem_insertByCreatedAtDesc {a x : StoredRecord} :
    ∀ {l : List StoredRecord}, a ∈ insertByCreatedAtDesc x l → a = x ∨ a ∈ l := by
  intro l
  induction l with
  | nil => simp [insertByCreatedAtDesc]
  | cons y ys ih =>
    simp only [insertByCreatedAtDesc]
    by_cases hc : x.createdAt ≤ y.createdAt
    · simp only [hc, if_true, List.mem_cons]
      rintro (rfl | hmem)
      · exact Or.inr (Or.inl rfl)
      · rcases ih hmem with h | h
        · exact Or.inl h
        · exact Or.inr (Or.inr h)
    · simp only [hc, if_false, List.mem_cons]
      exact fun h => h

/-- Sorting adds no record. -/
theorem mem_sortByCreatedAtDesc {a : StoredRecord} :
    ∀ {l : List StoredRecord}, a ∈ sortByCreatedAtDesc l → a ∈ l := by
  intro l
  induction l with
  | nil => simp [sortByCreatedAtDesc]
  | cons y ys ih =>
    intro h
    rcases mem_insertByCreatedAtDesc h with rfl | h
    · exact List.mem_cons_self _ _
    · exact List.mem_cons_of_mem y (ih h)

/- ### Claim theorems -/

/-- C1 counterexample: with the generation oracle returning a performance
score of 150, the pipeline persists the report unmodified — the stored
row's denormalized performance score is 150, out of [0,100], and the same
report is exposed as the result.  No clamping or rejection happens before
`create`. -/
theorem c1_out_of_range_persisted :
    ((analyzeWebsite env150 s0).db.map (fun rec => rec.performanceScore)) = [some 150] ∧
    ((analyzeWebsite env150 s0).result.map (fun r => r.performance.score)) = some 150 ∧
    ¬(150 : Int) ≤ 100 := by
  refine ⟨by decide, by decide, by decide⟩

/-- C1 (amended): the pipeline persists the analyzer's category scores
unchanged — the record written by `create` carries exactly the five scores
of the generated body, so the persisted scores are in [0,100] exactly when
the analyzer's are; no clamping or rejection is performed. -/
theorem c1_scores_passthrough (env : Env) (s : AppState) (validUrl : String)
    (body : AnalysisBody) (sc : ScrapeResult) (shot : String)
    (hval : validateUrl s.url = some validUrl)
    (hs : env.scrape = .ok sc) (hsh : env.screenshot = .ok shot)
    (hg : env.generateObject = .ok body) (hc : env.createOk = true) :
    (analyzeWebsite env s).db =
      s.db ++ [mkRecord s.userId env.nowIso (assembleResult validUrl env.now body)] ∧
    (mkRecord s.userId env.nowIso (assembleResult validUrl env.now body)).performanceScore =
      some body.performance.score ∧
    (mkRecord s.userId env.nowIso (assembleResult validUrl env.now body)).seoScore =
      some body.seo.score ∧
    (mkRecord s.userId env.nowIso (assembleResult validUrl env.now body)).accessibilityScore =
      some body.accessibility.score ∧
    (mkRecord s.userId env.nowIso (assembleResult validUrl env.now body)).designScore =
      some body.design.score ∧
    (mkRecord s.userId env.nowIso (assembleResult validUrl env.now body)).uxScore =
      some body.ux.score := by
  refine ⟨?_, rfl, rfl, rfl, rfl, rfl⟩
  simp [analyzeWebsite, hval, tryBlock, hs, hsh, hg, hc, loadHistory]

/-- Witness for `c1_scores_passthrough` at `envOk`/`s0`. -/
theorem c1_scores_passthrough_witness :
    (analyzeWebsite envOk s0).db =
      s0.db ++ [mkRecord s0.userId envOk.nowIso
        (assembleResult "https://example.com" envOk.now sampleBody)] ∧
    (mkRecord s0.userId envOk.nowIso
      (assembleResult "https://example.com" envOk.now sampleBody)).performanceScore =
      some sampleBody.performance.score ∧
    (mkRecord s0.userId envOk.nowIso
      (assembleResult "https://example.com" envOk.now sampleBody)).seoScore =
      some sampleBody.seo.score ∧
    (mkRecord s0.userId envOk.nowIso
      (assembleResult "https://example.com" envOk.now sampleBody)).accessibilityScore =
      some sampleBody.accessibility.score ∧
    (mkRecord s0.userId envOk.nowIso
      (assembleResult "https://example.com" envOk.now sampleBody)).designScore =
      some sampleBody.design.score ∧
    (mkRecord s0.userId envOk.nowIso
      (assembleResult "https://example.com" envOk.now sampleBody)).uxScore =
      some sampleBody.ux.score :=
  c1_scores_passthrough envOk s0 "https://example.com" sampleBody
    ⟨"# Example", some "Example", none⟩ "shot.png" (by decide) rfl rfl rfl rfl

/-- C2: a report written via the store's `create` decodes back (through
`loadHistory`'s per-item parsing) to a report with identical `id`, `url`,
`timestamp` and category sections, and `list` returns only records that
are in the store, unmodified. -/
theorem c2_create_list_roundtrip (u iso : String) (r : AnalysisResult)
    (db : List StoredRecord) (limit : Nat) :
    parseHistoryItem (mkRecord u iso r) = some r ∧
    ∀ item ∈ listAnalyses db u limit, item ∈ db := by
  refine ⟨parseHistoryItem_mkRecord u iso r, ?_⟩
  intro item hmem
  simp only [listAnalyses] at hmem
  have h1 : item ∈ sortByCreatedAtDesc (db.filter (fun rec => rec.userId = u)) :=
    List.take_subset _ _ hmem
  exact List.filter_subset' _ (mem_sortByCreatedAtDesc h1)

/-- Witness for `c2_create_list_roundtrip` on a singleton store. -/
theorem c2_create_list_roundtrip_witness :
    parseHistoryItem (mkRecord "u1" "2026-01-01T00:00:00.000Z" sampleResult) =
      some sampleResult ∧
    mkRecord "u1" "2026-01-01T00:00:00.000Z" sampleResult ∈
      [mkRecord "u1" "2026-01-01T00:00:00.000Z" sampleResult] := by
  have h := c2_create_list_roundtrip "u1" "2026-01-01T00:00:00.000Z" sampleResult
    [mkRecord "u1" "2026-01-01T00:00:00.000Z" sampleResult] 10
  refine ⟨h.1, h.2 _ ?_⟩
  show _ ∈ listAnalyses [mkRecord "u1" "2026-01-01T00:00:00.000Z" sampleResult] "u1" 10
  have e : listAnalyses [mkRecord "u1" "2026-01-01T00:00:00.000Z" sampleResult] "u1" 10 =
      [mkRecord "u1" "2026-01-01T00:00:00.000Z" sampleResult] := rfl
  rw [e]
  exact List.mem_singleton_self _

/-- C3: a stored row whose blob fails to decode but whose denormalized
scores are present yields — without any propagated error — a synthesized
entry whose five scores equal the stored denormalized values and whose
detail bundles and recommendation lists are empty/zeroed. -/
theorem c3_corrupt_blob_fallback (item : StoredRecord) (p se a d u : Int)
    (hnone : item.analysisData = none)
    (hp : item.performanceScore = some p) (hse : item.seoScore = some se)
    (ha : item.accessibilityScore = some a) (hd : item.designScore = some d)
    (hu : item.uxScore = some u) :
    parseHistoryItem item =
      some
        { id := item.id, url := item.url, timestamp := item.timestamp,
          performance := ⟨p, ⟨0, 0, 0, 0⟩, []⟩, seo := ⟨se, [], []⟩,
          accessibility := ⟨a, [], []⟩, design := ⟨d, ⟨0, 0, 0, 0⟩, []⟩,
          ux := ⟨u, ⟨0, 0, 0, 0⟩, []⟩ } := by
  simp [parseHistoryItem, hnone, fallbackEntry, hp, hse, ha, hd, hu, jsOr_some]

/-- Witness for `c3_corrupt_blob_fallback` at the concrete corrupt row. -/
theorem c3_corrupt_blob_fallback_witness :
    parseHistoryItem corruptRec =
      some
        { id := corruptRec.id, url := corruptRec.url, timestamp := corruptRec.timestamp,
          performance := ⟨80, ⟨0, 0, 0, 0⟩, []⟩, seo := ⟨60, [], []⟩,
          accessibility := ⟨90, [], []⟩, design := ⟨70, ⟨0, 0, 0, 0⟩, []⟩,
          ux := ⟨50, ⟨0, 0, 0, 0⟩, []⟩ } :=
  c3_corrupt_blob_fallback corruptRec 80 60 90 70 50 rfl rfl rfl rfl rfl rfl

/-- C4: the computed overall score is the arithmetic mean of the five
category scores rounded to the nearest integer with halves rounding up;
scores (80,60,90,70,50) give 70 and (0,0,0,0,0) give 0. -/
theorem c4_overall_round_half_up :
    (∀ r : AnalysisResult, overallScore r = specOverallScore r) ∧
    overallScore sampleResult = 70 ∧ overallScore zeroResult = 0 := by
  refine ⟨?_, ?_, ?_⟩
  · intro r
    unfold overallScore specOverallScore jsRound
    set m : ℚ := (sumScores r : ℚ) / 5 with hm
    have hfl := Int.floor_le m
    have hfu := Int.lt_floor_add_one m
    rcases lt_or_le (m - ⌊m⌋) (1/2) with h | h
    · rw [if_pos h]
      rw [Int.floor_eq_iff]
      refine ⟨by linarith, by linarith⟩
    · rw [if_neg (by linarith)]
      have hceil : (⌈m⌉ : ℤ) = ⌊m⌋ + 1 := by
        rw [Int.ceil_eq_iff]
        constructor
        · push_cast
          linarith
        · push_cast
          linarith
      rw [hceil, Int.floor_eq_iff]
      constructor
      · push_cast
        linarith
      · push_cast
        linarith
  · norm_num [overallScore, jsRound, sumScores, sampleResult, assembleResult, sampleBody,
      Int.floor_eq_iff]
  · norm_num [overallScore, jsRound, sumScores, zeroResult, fallbackEntry, corruptRec,
      jsOr, Int.floor_eq_iff]

/-- C5 (code bug): on a non-empty window the code reports the constant
"Design" as best category, although the window's performance mean strictly
exceeds its design mean; the spec-side per-category comparison picks
"performance". -/
theorem c5_best_category_placeholder :
    bestCategoryCode [some perfBest] = "Design" ∧
    specBestCategory [perfBest] = "performance" ∧
    categoryMean (fun r => r.performance.score) [perfBest] >
      categoryMean (fun r => r.design.score) [perfBest] := by
  refine ⟨by decide, ?_, ?_⟩
  · norm_num [specBestCategory, categoryMean, perfBest]
  · norm_num [categoryMean, perfBest]

/-- C6: when any stage of a started run fails (fetch, capture, analyze
or persist), nothing is persisted, no result is exposed, progress and step
are reset, exactly one generic failure toast is emitted, the orchestrator
is startable again (`analyzing = false`), and a subsequent `list` sees the
unchanged store. -/
theorem c6_stage_failure_aborts (env : Env) (s : AppState) (validUrl : String)
    (hval : validateUrl s.url = some validUrl)
    (hfail : (∃ e, env.scrape = .error e) ∨ (∃ e, env.screenshot = .error e) ∨
      (∃ e, env.generateObject = .error e) ∨ env.createOk = false) :
    (analyzeWebsite env s).db = s.db ∧
    (analyzeWebsite env s).result = none ∧
    (analyzeWebsite env s).analyzing = false ∧
    (analyzeWebsite env s).progress = 0 ∧
    (analyzeWebsite env s).currentStep = "" ∧
    (analyzeWebsite env s).history = s.history ∧
    (analyzeWebsite env s).toasts =
      s.toasts ++ [ToastMsg.error "Analysis failed. Please try again."] ∧
    ∀ u n, listAnalyses (analyzeWebsite env s).db u n = listAnalyses s.db u n := by
  cases hs : env.scrape with
  | error e => simp [analyzeWebsite, hval, tryBlock, hs]
  | ok sc =>
    cases hsh : env.screenshot with
    | error e => simp [analyzeWebsite, hval, tryBlock, hs, hsh]
    | ok shot =>
      cases hg : env.generateObject with
      | error e => simp [analyzeWebsite, hval, tryBlock, hs, hsh, hg]
      | ok body =>
        cases hc : env.createOk with
        | false => simp [analyzeWebsite, hval, tryBlock, hs, hsh, hg, hc]
        | true =>
          exfalso
          rcases hfail with ⟨e, he⟩ | ⟨e, he⟩ | ⟨e, he⟩ | he
          · rw [hs] at he
            exact Except.noConfusion he
          · rw [hsh] at he
            exact Except.noConfusion he
          · rw [hg] at he
            exact Except.noConfusion he
          · rw [hc] at he
            exact Bool.noConfusion he

/-- Witness for `c6_stage_failure_aborts`: a Visual Capture failure leaves
the store empty and the orchestrator reset. -/
theorem c6_stage_failure_aborts_witness :
    (analyzeWebsite envShotFail s0).db = s0.db ∧
    (analyzeWebsite envShotFail s0).result = none ∧
    (analyzeWebsite envShotFail s0).analyzing = false ∧
    (analyzeWebsite envShotFail s0).progress = 0 ∧
    (analyzeWebsite envShotFail s0).currentStep = "" ∧
    (analyzeWebsite envShotFail s0).history = s0.history ∧
    (analyzeWebsite envShotFail s0).toasts =
      s0.toasts ++ [ToastMsg.error "Analysis failed. Please try again."] ∧
    ∀ u n, listAnalyses (analyzeWebsite envShotFail s0).db u n = listAnalyses s0.db u n :=
  c6_stage_failure_aborts envShotFail s0 "https://example.com" (by decide)
    (Or.inr (Or.inl ⟨"screenshot failed", rfl⟩))

/-- C7 counterexample: the input `" example.com"` is nonempty after
trimming and lacks a scheme; had validation trimmed first, prepending
`https://` would give a URL the parser accepts — but the code prepends to
the untrimmed input and rejects, so the pipeline is not started. -/
theorem c7_untrimmed_input_rejected :
    validateUrl " example.com" = none ∧
    jsTrim " example.com" ≠ "" ∧
    jsStartsWith " example.com" "http://" = false ∧
    jsStartsWith " example.com" "https://" = false ∧
    jsUrlValid ("https://" ++ jsTrim " example.com") = true := by
  refine ⟨by decide, by decide, by decide, by decide, by decide⟩

/-- C7 (amended): validation trims only for the emptiness test — empty or
whitespace-only input fails (`InvalidUrl`, pipeline not started); when
validation succeeds the canonical URL is the untrimmed input with
`https://` prepended unless it already starts with a scheme, and it parses
as a valid absolute URL; when validation fails the pipeline does not start
(only the invalid-URL toast is emitted). -/
theorem c7_validation_behavior (input : String) :
    (jsTrim input = "" → validateUrl input = none) ∧
    (∀ v, validateUrl input = some v →
      v = (if jsStartsWith input "http://" || jsStartsWith input "https://" then input
        else "https://" ++ input) ∧ jsUrlValid v = true) ∧
    (∀ env s, s.url = input → validateUrl input = none →
      analyzeWebsite env s =
        { s with toasts := s.toasts ++ [ToastMsg.error "Please enter a valid URL"] }) := by
  refine ⟨?_, ?_, ?_⟩
  · intro h
    simp [validateUrl, h]
  · intro v hv
    simp only [validateUrl] at hv
    by_cases ht : jsTrim input = ""
    · simp [ht] at hv
    · simp only [ht, if_false] at hv
      by_cases hu : jsUrlValid (if jsStartsWith input "http://" ||
          jsStartsWith input "https://" then input else "https://" ++ input)
      · rw [if_pos hu] at hv
        injection hv with hv
        subst hv
        exact ⟨rfl, hu⟩
      · rw [if_neg hu] at hv
        exact Option.noConfusion hv
  · intro env s hurl hnone
    have h : validateUrl s.url = none := by
      rw [hurl]
      exact hnone
    simp [analyzeWebsite, h]

/-- Witness for `c7_validation_behavior` at whitespace input and at
`example.com`. -/
theorem c7_validation_behavior_witness :
    validateUrl "   " = none ∧
    ("https://example.com" =
      (if jsStartsWith "example.com" "http://" || jsStartsWith "example.com" "https://"
        then "example.com" else "https://" ++ "example.com") ∧
      jsUrlValid "https://example.com" = true) ∧
    analyzeWebsite envOk sWs =
      { sWs with toasts := sWs.toasts ++ [ToastMsg.error "Please enter a valid URL"] } :=
  ⟨(c7_validation_behavior "   ").1 (by decide),
    (c7_validation_behavior "example.com").2.1 "https://example.com" (by decide),
    (c7_validation_behavior "   ").2.2 envOk sWs rfl (by decide)⟩

/-- C8 (code bug): invoked while a run is already marked in flight
(`analyzing = true`), `analyzeWebsite` is neither rejected nor queued — it
runs the whole pipeline and persists a report; only the UI button guard
(`disabled={analyzing || !url.trim()}`) refuses the trigger. -/
theorem c8_reentrant_run_not_rejected :
    (analyzeWebsite envOk sBusy).db.length = 1 ∧
    (analyzeWebsite envOk sBusy).result = some sampleResult ∧
    (analyzeWebsite envOk sBusy).toasts = [ToastMsg.success "Website analysis completed!"] ∧
    buttonClick envOk sBusy = sBusy := by
  refine ⟨by decide, by decide, by decide, rfl⟩

/-- C9 counterexample: two successful runs in the same millisecond persist
two distinct reports (different URLs) for the same user with the same
generated id `analysis_1000`. -/
theorem c9_same_millisecond_id_collision :
    ((analyzeWebsite envOk afterFirstRun).db.map (fun rec => rec.id)) =
      ["analysis_1000", "analysis_1000"] ∧
    ((analyzeWebsite envOk afterFirstRun).db.map (fun rec => rec.url)) =
      ["https://example.com", "https://b.com"] ∧
    ((analyzeWebsite envOk afterFirstRun).db.map (fun rec => rec.userId)) = ["u1", "u1"] := by
  refine ⟨by decide, by decide, by decide⟩

/-- C9 (amended): ids are generated at creation time from the creation
instant, so two reports assembled at distinct `Date.now()` values have
distinct ids; uniqueness holds only across distinct milliseconds. -/
theorem c9_distinct_instants_distinct_ids (u₁ u₂ : String) (n₁ n₂ : Nat)
    (b₁ b₂ : AnalysisBody) (h : n₁ ≠ n₂) :
    (assembleResult u₁ n₁ b₁).id ≠ (assembleResult u₂ n₂ b₂).id := by
  simpa [assembleResult] using idOf_inj h

/-- Witness for `c9_distinct_instants_distinct_ids`. -/
theorem c9_distinct_instants_distinct_ids_witness :
    (assembleResult "https://a.com" 1000 sampleBody).id ≠
      (assembleResult "https://b.com" 1001 sampleBody).id :=
  c9_distinct_instants_distinct_ids "https://a.com" "https://b.com" 1000 1001
    sampleBody sampleBody (by decide)

/-- C10: every invocation whose URL validates resets the observable
progress state when it terminates, on success and on failure alike: the
in-progress flag is false, the percentage is 0 and the step label is
empty — a successful run does not leave progress at 100 or the completion
label visible. -/
theorem c10_progress_reset_after_run (env : Env) (s : AppState) (validUrl : String)
    (hval : validateUrl s.url = some validUrl) :
    (analyzeWebsite env s).analyzing = false ∧
    (analyzeWebsite env s).progress = 0 ∧
    (analyzeWebsite env s).currentStep = "" := by
  simp only [analyzeWebsite, hval]
  exact ⟨trivial, trivial, trivial⟩

/-- Witness for `c10_progress_reset_after_run` on a successful run. -/
theorem c10_progress_reset_after_run_witness :
    (analyzeWebsite envOk s0).analyzing = false ∧
    (analyzeWebsite envOk s0).progress = 0 ∧
    (analyzeWebsite envOk s0).currentStep = "" :=
  c10_progress_reset_after_run envOk s0 "https://example.com" (by decide)
